import Mathlib

/-!
Verification of the StateManager (centralized state container) of the
finance-simulator repository, against its natural-language specification.

The StateManager source (src/lib/state-manager.ts) is embedded shallowly:

* the collaborators it wraps (the FinanceEngine, the FinancialDataValidator
  and the host function JSON.stringify) are not part of the repository slice;
  following the specification they are treated as an abstract record of
  operations (structure Env below), where operations that may throw return
  an Except value;
* the mutable this.state / this.validationCache / this.subscribers fields
  become a record (structure SMgr) threaded through every method;
* subscriber callbacks are identified by a numeric id (JS function reference
  identity); a notification is recorded as an Event in a ghost trace field,
  carrying the update kind, the state snapshot passed to the callbacks and
  the list of subscriber ids the snapshot was delivered to (each callback
  invocation is wrapped in try/catch in the source, so a throwing callback
  does not stop delivery and has no effect on the container state);
* new Date().toISOString() timestamps become a ghost counter (clock);
* the number of invocations of the whole-dataset validator is recorded in
  the ghost counter valCalls, so cache-reuse claims can count invocations;
* ERROR_UPDATE payloads carry Option String since clearError passes null.

try/catch blocks are rendered by matching on the Except-valued collaborator
calls; the code inside the StateManager itself (plain field assignments,
array operations) cannot throw, so each catch handler is reachable exactly
from the collaborator failure branches rendered here.  autoSave calls the
engine save operation, whose failure is caught and logged and whose success
has no observable effect on the modelled state, so it is the identity on
the model (the DATA_UPDATE branch of updateState notes where it fires).
-/

namespace FinSim

/-- ValidationResult as in src/lib/validation (collaborator contract):
isValid flag plus error and warning message lists. -/
structure ValidationResult where
  isValid : Bool
  errors : List String
  warnings : List String
deriving DecidableEq, Repr

/-- Result record returned by the engine importJSON and by
StateManager.importData. -/
structure ImportResult where
  success : Bool
  error : Option String
deriving DecidableEq, Repr

/-- The collaborators of the StateManager: the FinanceEngine operations
(section 4.3 of the specification), the FinancialDataValidator operations
(section 4.2) and the host serialization JSON.stringify restricted to data
values.  Engine state has abstract type epsilon; dataset values, scenario
definitions, computation results and update payloads are opaque to the
StateManager and share the abstract type alpha.  Operations the
specification allows to throw return Except String. -/
structure Env (ε α : Type) where
  freshEngine : ε
  init : ε → Except String ε
  getData : ε → α
  getScenarios : ε → List (String × α)
  compute : ε → Except String α
  engUpdateMenu : String → α → ε → Except String ε
  engUpdateSalesModel : α → ε → Except String ε
  engUpdateUtilities : List α → ε → Except String ε
  engUpdateLabor : List α → ε → Except String ε
  engUpdateFixedCosts : List α → ε → Except String ε
  importJSON : String → ε → Except String (ImportResult × ε)
  exportJSON : ε → Except String String
  validateMenuItem : α → ValidationResult
  validateSalesModel : α → ValidationResult
  validateUtilityItem : α → ValidationResult
  validateLaborItem : α → ValidationResult
  validateFixedCost : α → ValidationResult
  validateAllData : Option α → Except String ValidationResult
  stringify : α → String

/-- AppState as in the source: the single owned snapshot.  data and
computationResult are nullable, scenarios is a string-keyed map (modelled
as an association list), lastUpdated is the ghost timestamp. -/
structure AppState (α : Type) where
  data : Option α
  scenarios : List (String × α)
  currentScenario : String
  computationResult : Option α
  validationResults : List ValidationResult
  isLoading : Bool
  error : Option String
  lastUpdated : Nat
deriving DecidableEq, Repr

/-- The six transition kinds of the StateUpdate type in the source. -/
inductive UpdateType where
  | DATA_UPDATE
  | SCENARIO_UPDATE
  | COMPUTATION_UPDATE
  | VALIDATION_UPDATE
  | ERROR_UPDATE
  | LOADING_UPDATE
deriving DecidableEq, Repr

/-- StateUpdate: one constructor per transition kind, carrying the payload
fields the corresponding switch branch of updateState reads. -/
inductive StateUpdate (α : Type) where
  | dataU (data : Option α) (scenarios : List (String × α))
  | scenarioU (scenarioId : String)
  | computationU (result : Option α)
  | validationU (results : List ValidationResult)
  | errorU (error : Option String)
  | loadingU (isLoading : Bool)
deriving DecidableEq, Repr

/-- The transition kind of a StateUpdate. -/
def StateUpdate.kind : StateUpdate α → UpdateType
  | .dataU _ _ => .DATA_UPDATE
  | .scenarioU _ => .SCENARIO_UPDATE
  | .computationU _ => .COMPUTATION_UPDATE
  | .validationU _ => .VALIDATION_UPDATE
  | .errorU _ => .ERROR_UPDATE
  | .loadingU _ => .LOADING_UPDATE

/-- One recorded notification: the kind of the update that triggered it,
the snapshot passed to the callbacks, and the subscriber ids it was
delivered to (in registration order). -/
structure Event (α : Type) where
  kind : UpdateType
  snapshot : AppState α
  delivered : List Nat
deriving DecidableEq, Repr

/-- The StateManager instance: the owned AppState, the wrapped engine
state, the subscriber list (callback ids in registration order), the
validation cache (newest entry first, looked up by key, mirroring a JS
Map), plus the ghost clock, notification trace and validator-invocation
counter. -/
structure SMgr (ε α : Type) where
  state : AppState α
  engine : ε
  subscribers : List Nat
  validationCache : List (String × ValidationResult)
  clock : Nat
  trace : List (Event α)
  valCalls : Nat
deriving DecidableEq, Repr

variable {ε α : Type}

/-- The switch statement of updateState: the effect of one StateUpdate on
the AppState fields (timestamp stamped separately by updateState). -/
def applyUpdate (st : AppState α) : StateUpdate α → AppState α
  | .dataU d s => { st with data := d, scenarios := s }
  | .scenarioU id => { st with currentScenario := id }
  | .computationU r => { st with computationResult := r }
  | .validationU rs => { st with validationResults := rs }
  | .errorU e => { st with error := e, isLoading := false }
  | .loadingU b =>
      { st with isLoading := b, error := if b then none else st.error }

/-- StateManager.updateState: applies the switch, stamps lastUpdated,
notifies the subscribers (recorded as one Event delivered to the current
subscriber list; throwing callbacks are caught per callback in the source
and affect nothing).  On DATA updates the source additionally fires the
fire-and-forget autoSave, whose failure is caught and which has no
observable effect on the modelled state.  The surrounding try/catch of the
source is unreachable here: the switch and the notification loop cannot
throw. -/
def updateState (u : StateUpdate α) (sm : SMgr ε α) : SMgr ε α :=
  let st := { applyUpdate sm.state u with lastUpdated := sm.clock }
  { sm with
    state := st
    clock := sm.clock + 1
    trace := sm.trace ++ [{ kind := u.kind, snapshot := st,
                            delivered := sm.subscribers }] }

/-- StateManager.subscribe: pushes the callback id onto the subscriber
list.  The returned unsubscribe closure is modelled by the function
unsubscribe applied to the same callback id. -/
def subscribe (cb : Nat) (sm : SMgr ε α) : SMgr ε α :=
  { sm with subscribers := sm.subscribers ++ [cb] }

/-- The unsubscribe closure returned by subscribe: looks up the first index
of the captured callback (Array.indexOf, reference equality) and, when
found, splices that single entry out. -/
def unsubscribe (cb : Nat) (sm : SMgr ε α) : SMgr ε α :=
  let index := sm.subscribers.indexOf cb
  if index < sm.subscribers.length then
    { sm with subscribers := sm.subscribers.eraseIdx index }
  else
    sm

/-- JSON.stringify(this.state.data): the cache key.  stringify of the JS
null value is the string null. -/
def dataHash (env : Env ε α) (d : Option α) : String :=
  match d with
  | none => "null"
  | some x => env.stringify x

/-- StateManager.validateAllData: looks the serialized dataset up in the
validation cache; on a hit emits VALIDATION with the cached outcome; on a
miss invokes the whole-dataset validator (counted in valCalls), caches and
emits the fresh outcome.  A throwing validator is caught and logged only:
nothing is cached and no VALIDATION is emitted. -/
def validateAllData (env : Env ε α) (sm : SMgr ε α) : SMgr ε α :=
  let h := dataHash env sm.state.data
  match sm.validationCache.lookup h with
  | some cachedResult => updateState (.validationU [cachedResult]) sm
  | none =>
      match env.validateAllData sm.state.data with
      | .error _ => { sm with valCalls := sm.valCalls + 1 }
      | .ok validationResult =>
          let sm' := { sm with
            validationCache := (h, validationResult) :: sm.validationCache
            valCalls := sm.valCalls + 1 }
          updateState (.validationU [validationResult]) sm'

/-- StateManager.computeAndValidate: engine compute, COMPUTATION update,
validateAllData, LOADING(false).  A throwing compute is converted to an
ERROR transition and aborts the sequence. -/
def computeAndValidate (env : Env ε α) (sm : SMgr ε α) : SMgr ε α :=
  match env.compute sm.engine with
  | .error e =>
      updateState (.errorU (some ("Computation failed: " ++ e))) sm
  | .ok computationResult =>
      let sm₁ := updateState (.computationU (some computationResult)) sm
      let sm₂ := validateAllData env sm₁
      updateState (.loadingU false) sm₂

/-- StateManager.updateMenu. -/
def updateMenu (env : Env ε α) (menuId : String) (updates : α)
    (sm : SMgr ε α) : SMgr ε α :=
  let sm₁ := updateState (.loadingU true) sm
  let validationResult := env.validateMenuItem updates
  if !validationResult.isValid then
    updateState (.errorU (some ("Menu validation failed: " ++
      String.intercalate ", " validationResult.errors))) sm₁
  else
    match env.engUpdateMenu menuId updates sm₁.engine with
    | .error e =>
        updateState (.errorU (some ("Failed to update menu: " ++ e))) sm₁
    | .ok eng' =>
        let sm₂ := { sm₁ with engine := eng' }
        let sm₃ := updateState
          (.dataU (some (env.getData eng')) sm₂.state.scenarios) sm₂
        computeAndValidate env sm₃

/-- StateManager.updateSalesModel. -/
def updateSalesModel (env : Env ε α) (updates : α) (sm : SMgr ε α) :
    SMgr ε α :=
  let sm₁ := updateState (.loadingU true) sm
  let validationResult := env.validateSalesModel updates
  if !validationResult.isValid then
    updateState (.errorU (some ("Sales model validation failed: " ++
      String.intercalate ", " validationResult.errors))) sm₁
  else
    match env.engUpdateSalesModel updates sm₁.engine with
    | .error e =>
        updateState
          (.errorU (some ("Failed to update sales model: " ++ e))) sm₁
    | .ok eng' =>
        let sm₂ := { sm₁ with engine := eng' }
        let sm₃ := updateState
          (.dataU (some (env.getData eng')) sm₂.state.scenarios) sm₂
        computeAndValidate env sm₃

/-- StateManager.updateUtilities: validates every element, aggregates the
messages of the failing elements, otherwise delegates to the engine. -/
def updateUtilities (env : Env ε α) (utilities : List α) (sm : SMgr ε α) :
    SMgr ε α :=
  let sm₁ := updateState (.loadingU true) sm
  let validationResults := utilities.map env.validateUtilityItem
  if validationResults.any (fun r => !r.isValid) then
    let errors :=
      (validationResults.filter (fun r => !r.isValid)).flatMap (·.errors)
    updateState (.errorU (some ("Utility validation failed: " ++
      String.intercalate ", " errors))) sm₁
  else
    match env.engUpdateUtilities utilities sm₁.engine with
    | .error e =>
        updateState
          (.errorU (some ("Failed to update utilities: " ++ e))) sm₁
    | .ok eng' =>
        let sm₂ := { sm₁ with engine := eng' }
        let sm₃ := updateState
          (.dataU (some (env.getData eng')) sm₂.state.scenarios) sm₂
        computeAndValidate env sm₃

/-- StateManager.updateLabor. -/
def updateLabor (env : Env ε α) (labor : List α) (sm : SMgr ε α) :
    SMgr ε α :=
  let sm₁ := updateState (.loadingU true) sm
  let validationResults := labor.map env.validateLaborItem
  if validationResults.any (fun r => !r.isValid) then
    let errors :=
      (validationResults.filter (fun r => !r.isValid)).flatMap (·.errors)
    updateState (.errorU (some ("Labor validation failed: " ++
      String.intercalate ", " errors))) sm₁
  else
    match env.engUpdateLabor labor sm₁.engine with
    | .error e =>
        updateState (.errorU (some ("Failed to update labor: " ++ e))) sm₁
    | .ok eng' =>
        let sm₂ := { sm₁ with engine := eng' }
        let sm₃ := updateState
          (.dataU (some (env.getData eng')) sm₂.state.scenarios) sm₂
        computeAndValidate env sm₃

/-- StateManager.updateFixedCosts. -/
def updateFixedCosts (env : Env ε α) (fixedCosts : List α)
    (sm : SMgr ε α) : SMgr ε α :=
  let sm₁ := updateState (.loadingU true) sm
  let validationResults := fixedCosts.map env.validateFixedCost
  if validationResults.any (fun r => !r.isValid) then
    let errors :=
      (validationResults.filter (fun r => !r.isValid)).flatMap (·.errors)
    updateState (.errorU (some ("Fixed cost validation failed: " ++
      String.intercalate ", " errors))) sm₁
  else
    match env.engUpdateFixedCosts fixedCosts sm₁.engine with
    | .error e =>
        updateState
          (.errorU (some ("Failed to update fixed costs: " ++ e))) sm₁
    | .ok eng' =>
        let sm₂ := { sm₁ with engine := eng' }
        let sm₃ := updateState
          (.dataU (some (env.getData eng')) sm₂.state.scenarios) sm₂
        computeAndValidate env sm₃

/-- StateManager.importData: LOADING(true); delegate to the engine
importJSON.  On success re-read dataset and scenarios, emit DATA, run
computeAndValidate, then wholesale-clear the validation cache, and return
the engine result.  On an unsuccessful result emit ERROR with the reported
or fallback message and return the result.  A thrown exception is caught,
converted to an ERROR transition and reported as a failure result. -/
def importData (env : Env ε α) (jsonString : String) (sm : SMgr ε α) :
    SMgr ε α × ImportResult :=
  let sm₁ := updateState (.loadingU true) sm
  match env.importJSON jsonString sm₁.engine with
  | .error e =>
      (updateState (.errorU (some ("Import failed: " ++ e))) sm₁,
       { success := false, error := some e })
  | .ok (result, eng') =>
      let sm₂ := { sm₁ with engine := eng' }
      if result.success then
        let sm₃ := updateState
          (.dataU (some (env.getData eng')) (env.getScenarios eng')) sm₂
        let sm₄ := computeAndValidate env sm₃
        ({ sm₄ with validationCache := [] }, result)
      else
        (updateState
          (.errorU (some (result.error.getD "Import failed"))) sm₂,
         result)

/-- StateManager.exportData: delegates to the engine exportJSON; a thrown
exception is logged and re-thrown to the caller, so the Except value is
propagated as-is. -/
def exportData (env : Env ε α) (sm : SMgr ε α) : Except String String :=
  env.exportJSON sm.engine

/-- StateManager.getState: returns a copy of the snapshot (the heap-level
shallowness of the spread copy is modelled separately for claim C8). -/
def getState (sm : SMgr ε α) : AppState α :=
  sm.state

/-- StateManager.setCurrentScenario: SCENARIO update when the id is a key
of scenarios, ERROR transition otherwise. -/
def setCurrentScenario (scenarioId : String) (sm : SMgr ε α) : SMgr ε α :=
  match sm.state.scenarios.lookup scenarioId with
  | some _ => updateState (.scenarioU scenarioId) sm
  | none =>
      updateState
        (.errorU (some ("Scenario " ++ scenarioId ++ " not found"))) sm

/-- StateManager.clearError: an ERROR_UPDATE carrying null. -/
def clearError (sm : SMgr ε α) : SMgr ε α :=
  updateState (.errorU none) sm

/-- StateManager.reset: LOADING(true); the two persisted keys are removed
from the persistence adapter (no observable effect on the modelled state);
the engine is replaced by a fresh instance before init runs, so a throwing
init leaves the fresh engine installed and converts to an ERROR
transition; otherwise DATA, computeAndValidate and a cache clear follow. -/
def reset (env : Env ε α) (sm : SMgr ε α) : SMgr ε α :=
  let sm₁ := updateState (.loadingU true) sm
  let sm₂ := { sm₁ with engine := env.freshEngine }
  match env.init sm₂.engine with
  | .error e =>
      updateState (.errorU (some ("Reset failed: " ++ e))) sm₂
  | .ok eng' =>
      let sm₃ := { sm₂ with engine := eng' }
      let sm₄ := updateState
        (.dataU (some (env.getData eng')) (env.getScenarios eng')) sm₃
      let sm₅ := computeAndValidate env sm₄
      { sm₅ with validationCache := [] }

/-- StateManager.getInitialState: empty dataset, empty scenario map,
current scenario base, not loading, no error. -/
def getInitialState (clock : Nat) : AppState α :=
  { data := none
    scenarios := []
    currentScenario := "base"
    computationResult := none
    validationResults := []
    isLoading := false
    error := none
    lastUpdated := clock }

/-- StateManager.initializeState: engine init, DATA update with the
engine's dataset and scenarios, computeAndValidate; a throwing init is
converted to an ERROR transition. -/
def initializeState (env : Env ε α) (sm : SMgr ε α) : SMgr ε α :=
  match env.init sm.engine with
  | .error e =>
      updateState (.errorU (some ("Failed to initialize: " ++ e))) sm
  | .ok eng' =>
      let sm₁ := { sm with engine := eng' }
      let sm₂ := updateState
        (.dataU (some (env.getData eng')) (env.getScenarios eng')) sm₁
      computeAndValidate env sm₂

/-- The StateManager constructor: fresh engine, initial AppState, then
initializeState. -/
def mkStateManager (env : Env ε α) : SMgr ε α :=
  initializeState env
    { state := getInitialState 0
      engine := env.freshEngine
      subscribers := []
      validationCache := []
      clock := 1
      trace := []
      valCalls := 0 }

/-- Boolean form of the scenario invariant claimed by the specification:
the current scenario id is a key of the scenario map. -/
def scenarioOk (sm : SMgr ε α) : Bool :=
  (sm.state.scenarios.lookup sm.state.currentScenario).isSome

/-- A concrete well-behaved collaborator environment (engine state Unit,
data values Nat): every operation succeeds and every validator accepts. -/
def envOK : Env Unit Nat where
  freshEngine := ()
  init := fun e => .ok e
  getData := fun _ => 42
  getScenarios := fun _ => [("base", 1)]
  compute := fun _ => .ok 7
  engUpdateMenu := fun _ _ e => .ok e
  engUpdateSalesModel := fun _ e => .ok e
  engUpdateUtilities := fun _ e => .ok e
  engUpdateLabor := fun _ e => .ok e
  engUpdateFixedCosts := fun _ e => .ok e
  importJSON := fun _ e => .ok ({ success := true, error := none }, e)
  exportJSON := fun _ => .ok "exported"
  validateMenuItem := fun _ => ⟨true, [], []⟩
  validateSalesModel := fun _ => ⟨true, [], []⟩
  validateUtilityItem := fun _ => ⟨true, [], []⟩
  validateLaborItem := fun _ => ⟨true, [], []⟩
  validateFixedCost := fun _ => ⟨true, [], []⟩
  validateAllData := fun _ => .ok ⟨true, [], []⟩
  stringify := fun n => toString n

/-- An environment whose engine exposes an empty scenario map (the engine
is an external collaborator; its contract in the specification does not
force any particular key to be present). -/
def envNoBase : Env Unit Nat :=
  { envOK with getScenarios := fun _ => [] }

/-- An environment whose menu-item validator rejects every payload with
one message. -/
def envBadMenu : Env Unit Nat :=
  { envOK with validateMenuItem := fun _ => ⟨false, ["price must be positive"], []⟩ }

/-- An environment whose engine menu update throws. -/
def envThrowMenu : Env Unit Nat :=
  { envOK with engUpdateMenu := fun _ _ _ => .error "boom" }

/-- A manager observed mid-pipeline: a LOADING(true) transition has been
applied (updateState is itself a public method of the source class, and a
re-entrant subscriber callback observes exactly such states). -/
def smLoading : SMgr Unit Nat :=
  updateState (.loadingU true) (mkStateManager envOK)

/-- A manager on which the same callback (id 7) has been subscribed
twice. -/
def smDup : SMgr Unit Nat :=
  subscribe 7 (subscribe 7 (mkStateManager envOK))

/-- A manager with a single subscription of callback id 7. -/
def smOne : SMgr Unit Nat :=
  subscribe 7 (mkStateManager envOK)

/-- A manager whose validation cache already holds an outcome for the
serialization of the dataset a subsequent import will install
(stringify 42 is the cached key). -/
def smStale : SMgr Unit Nat :=
  { mkStateManager envOK with
    validationCache := [("42", ⟨false, ["stale"], []⟩)] }

/-- A manager carrying a prior error message and one subscriber
(callback id 7). -/
def smErr : SMgr Unit Nat :=
  subscribe 7 (updateState (.errorU (some "old")) (mkStateManager envOK))

/-- Address of a JS object in a heap: used to model the reference
semantics that the claim about getState is about. -/
abbrev Addr := Nat

/-- A heap of dataset objects, indexed by address. -/
abbrev Heap (α : Type) := List α

/-- AppState as the JS runtime holds it for the purposes of the getState
claim: the object-valued data field is a reference (an address into the
dataset heap), while primitive and immutable-string fields are held by
value.  The remaining object-valued fields (scenarios, computationResult,
validationResults) behave like data; data suffices to settle the claim,
which names the dataset as its nested-structure example. -/
structure AppStateRef (α : Type) where
  data : Addr
  scenarios : List (String × α)
  currentScenario : String
  computationResult : Option α
  validationResults : List ValidationResult
  isLoading : Bool
  error : Option String
  lastUpdated : Nat
deriving DecidableEq, Repr

/-- StateManager.getState at the JS object level: the spread copy copies
every field of this.state into a fresh record; for the object-valued data
field what is copied is the reference, not the referenced object (a
shallow copy). -/
def getStateRef (st : AppStateRef α) : AppStateRef α :=
  { data := st.data
    scenarios := st.scenarios
    currentScenario := st.currentScenario
    computationResult := st.computationResult
    validationResults := st.validationResults
    isLoading := st.isLoading
    error := st.error
    lastUpdated := st.lastUpdated }

/-- A nested mutation performed through a state copy: overwriting the
dataset object at the given address. -/
def heapWrite (h : Heap α) (a : Addr) (v : α) : Heap α :=
  h.set a v

/-- The container-owned dataset observable through a subsequent getState
or getData call: dereference the data field of the container-held
state. -/
def readData (st : AppStateRef α) (h : Heap α) : Option α :=
  h[st.data]?

/-- A concrete container-held state whose dataset lives at address 0. -/
def stC8 : AppStateRef Nat :=
  { data := 0
    scenarios := [("base", 1)]
    currentScenario := "base"
    computationResult := none
    validationResults := []
    isLoading := false
    error := none
    lastUpdated := 0 }

/-- A concrete heap: the dataset object at address 0 has value 42. -/
def heapC8 : Heap Nat := [42]

/-- An environment all of whose engine operations throw (with message
boom) while all validators accept: exercises every catch boundary. -/
def envAllThrow : Env Unit Nat :=
  { envOK with
    init := fun _ => .error "boom"
    compute := fun _ => .error "boom"
    engUpdateMenu := fun _ _ _ => .error "boom"
    engUpdateSalesModel := fun _ _ => .error "boom"
    engUpdateUtilities := fun _ _ => .error "boom"
    engUpdateLabor := fun _ _ => .error "boom"
    engUpdateFixedCosts := fun _ _ => .error "boom"
    importJSON := fun _ _ => .error "boom"
    exportJSON := fun _ => .error "boom" }

/-- A manager constructed over the all-throwing environment (its failing
initialization is itself converted into an ERROR transition). -/
def smThrow : SMgr Unit Nat := mkStateManager envAllThrow

section Lemmas

variable (u : StateUpdate α) (sm : SMgr ε α)

@[simp] theorem updateState_state :
    (updateState u sm).state =
      { applyUpdate sm.state u with lastUpdated := sm.clock } := rfl

@[simp] theorem updateState_engine :
    (updateState u sm).engine = sm.engine := rfl

@[simp] theorem updateState_subscribers :
    (updateState u sm).subscribers = sm.subscribers := rfl

@[simp] theorem updateState_validationCache :
    (updateState u sm).validationCache = sm.validationCache := rfl

@[simp] theorem updateState_valCalls :
    (updateState u sm).valCalls = sm.valCalls := rfl

@[simp] theorem updateState_clock :
    (updateState u sm).clock = sm.clock + 1 := rfl

@[simp] theorem updateState_trace :
    (updateState u sm).trace =
      sm.trace ++ [{ kind := u.kind,
                     snapshot := { applyUpdate sm.state u with
                                   lastUpdated := sm.clock },
                     delivered := sm.subscribers }] := rfl

end Lemmas

/-- C7 counterexample: the claim states that clearError leaves every state
field other than error (and the timestamp) unchanged, in particular
isLoading.  On the concrete state smLoading (isLoading true), clearError
flips isLoading to false, because the source routes clearError through the
ERROR_UPDATE branch, which always forces isLoading to false. -/
theorem C7_counterexample :
    (clearError smLoading).state.isLoading ≠ smLoading.state.isLoading := by
  have h1 : (clearError smLoading).state.isLoading = false := rfl
  have h2 : smLoading.state.isLoading = true := rfl
  simp [h1, h2]

/-- C7 (amended): clearError sets the error field to null and forces
isLoading to false (the ERROR_UPDATE branch always clears the loading
flag); every other state field (dataset, scenarios, current scenario,
computation result, validation results) is unchanged, apart from the
mandated lastUpdated refresh.  It also changes neither the engine, the
subscribers, the validation cache nor the validator-invocation count. -/
theorem C7_clearError_amended (sm : SMgr ε α) :
    (clearError sm).state.error = none ∧
    (clearError sm).state.isLoading = false ∧
    (clearError sm).state.data = sm.state.data ∧
    (clearError sm).state.scenarios = sm.state.scenarios ∧
    (clearError sm).state.currentScenario = sm.state.currentScenario ∧
    (clearError sm).state.computationResult = sm.state.computationResult ∧
    (clearError sm).state.validationResults = sm.state.validationResults ∧
    (clearError sm).engine = sm.engine ∧
    (clearError sm).subscribers = sm.subscribers ∧
    (clearError sm).validationCache = sm.validationCache ∧
    (clearError sm).valCalls = sm.valCalls := by
  simp [clearError, applyUpdate]

/-- The unsubscribe closure removes the first occurrence of the captured
callback id (Array.indexOf plus splice equals List.erase). -/
theorem unsubscribe_subscribers (cb : Nat) (sm : SMgr ε α) :
    (unsubscribe cb sm).subscribers = sm.subscribers.erase cb := by
  unfold unsubscribe
  by_cases h : sm.subscribers.indexOf cb < sm.subscribers.length
  · simp [h, List.eraseIdx_indexOf_eq_erase]
  · have hnm : cb ∉ sm.subscribers := by
      rcases Nat.lt_or_ge (sm.subscribers.indexOf cb)
          sm.subscribers.length with hlt | hge
      · exact absurd hlt h
      · have := List.indexOf_le_length (a := cb) (l := sm.subscribers)
        exact List.indexOf_eq_length.mp (Nat.le_antisymm this hge)
    simp [h, (List.erase_eq_self_iff).mpr hnm]

/-- When the callback is absent, the unsubscribe closure is the
identity. -/
theorem unsubscribe_of_not_mem (cb : Nat) (sm : SMgr ε α)
    (h : cb ∉ sm.subscribers) : unsubscribe cb sm = sm := by
  unfold unsubscribe
  have : ¬ sm.subscribers.indexOf cb < sm.subscribers.length := by
    rw [List.indexOf_eq_length.mpr h]
    exact Nat.lt_irrefl _
  simp [this]

/-- C9 counterexample: the claim states that calling the unsubscribe
function a second time is a no-op for every subscription multiset,
including duplicate registrations of the same callback.  On smDup, where
callback id 7 is registered twice, the first call removes one occurrence
and the second call removes the remaining one (indexOf finds it again), so
the second call changes the subscriber list and is not a no-op. -/
theorem C9_counterexample :
    (unsubscribe 7 (unsubscribe 7 smDup)).subscribers ≠
      (unsubscribe 7 smDup).subscribers := by
  have h1 : (unsubscribe 7 (unsubscribe 7 smDup)).subscribers = [] := rfl
  have h2 : (unsubscribe 7 smDup).subscribers = [7] := rfl
  simp [h1, h2]

/-- C9 (amended): the function returned by subscribe removes the first
registration of the callback still present.  Provided the callback is
registered at most once, calling the unsubscribe function a second time is
a no-op, the callback is no longer registered, and every notification
recorded after the removal (here: by an arbitrary updateState transition)
is not delivered to it; each notification a subsequent transition appends
delivers only to the remaining subscribers. -/
theorem C9_unsubscribe_amended (sm : SMgr ε α) (cb : Nat)
    (u : StateUpdate α) (h : sm.subscribers.count cb ≤ 1) :
    unsubscribe cb (unsubscribe cb sm) = unsubscribe cb sm ∧
    ((unsubscribe cb sm).subscribers.contains cb) = false ∧
    (((updateState u (unsubscribe cb sm)).trace.drop
        (unsubscribe cb sm).trace.length).all
      (fun e => !(e.delivered.contains cb))) = true := by
  have hnm : cb ∉ (unsubscribe cb sm).subscribers := by
    rw [unsubscribe_subscribers]
    intro hmem
    have hc := List.count_pos_iff.mpr hmem
    rw [List.count_erase_self] at hc
    omega
  refine ⟨unsubscribe_of_not_mem cb _ hnm, ?_, ?_⟩
  · simpa using hnm
  · simp [List.drop_append, hnm]

/-- Witness for C9 (amended) at the concrete manager smOne, whose
subscriber list is the single registration of callback id 7. -/
theorem C9_witness :
    unsubscribe 7 (unsubscribe 7 smOne) = unsubscribe 7 smOne ∧
    ((unsubscribe 7 smOne).subscribers.contains 7) = false ∧
    (((updateState (.loadingU true) (unsubscribe 7 smOne)).trace.drop
        (unsubscribe 7 smOne).trace.length).all
      (fun e => !(e.delivered.contains 7))) = true :=
  C9_unsubscribe_amended smOne 7 (.loadingU true)
    (by have h : smOne.subscribers = [7] := rfl
        rw [h]
        decide)

section FrameLemmas

variable (env : Env ε α) (sm : SMgr ε α)

@[simp] theorem validateAllData_scenarios :
    (validateAllData env sm).state.scenarios = sm.state.scenarios := by
  simp only [validateAllData]
  split
  · simp [applyUpdate]
  · split <;> simp [applyUpdate]

@[simp] theorem validateAllData_currentScenario :
    (validateAllData env sm).state.currentScenario =
      sm.state.currentScenario := by
  simp only [validateAllData]
  split
  · simp [applyUpdate]
  · split <;> simp [applyUpdate]

@[simp] theorem validateAllData_data :
    (validateAllData env sm).state.data = sm.state.data := by
  simp only [validateAllData]
  split
  · simp [applyUpdate]
  · split <;> simp [applyUpdate]

@[simp] theorem validateAllData_engine :
    (validateAllData env sm).engine = sm.engine := by
  simp only [validateAllData]
  split
  · simp
  · split <;> simp

@[simp] theorem validateAllData_subscribers :
    (validateAllData env sm).subscribers = sm.subscribers := by
  simp only [validateAllData]
  split
  · simp
  · split <;> simp

@[simp] theorem computeAndValidate_scenarios :
    (computeAndValidate env sm).state.scenarios = sm.state.scenarios := by
  simp only [computeAndValidate]
  split <;> simp [applyUpdate]

@[simp] theorem computeAndValidate_currentScenario :
    (computeAndValidate env sm).state.currentScenario =
      sm.state.currentScenario := by
  simp only [computeAndValidate]
  split <;> simp [applyUpdate]

@[simp] theorem computeAndValidate_data :
    (computeAndValidate env sm).state.data = sm.state.data := by
  simp only [computeAndValidate]
  split <;> simp [applyUpdate]

@[simp] theorem computeAndValidate_engine :
    (computeAndValidate env sm).engine = sm.engine := by
  simp only [computeAndValidate]
  split <;> simp

@[simp] theorem computeAndValidate_subscribers :
    (computeAndValidate env sm).subscribers = sm.subscribers := by
  simp only [computeAndValidate]
  split <;> simp

end FrameLemmas

/-- C3 counterexample: the claim states that at every point, including the
initial state after construction, the current scenario id is a key of the
scenario map.  Constructing a StateManager over the collaborator
environment envNoBase (whose engine exposes an empty scenario map, which
the collaborator contract of the specification permits) yields a manager
whose currentScenario is base while scenarios has no keys at all, so the
claimed invariant does not hold after construction.  The same field
configuration arises when importData installs a scenario map lacking the
current id. -/
theorem C3_counterexample :
    scenarioOk (mkStateManager envNoBase) = false := by
  have h1 : (mkStateManager envNoBase).state.scenarios = [] := rfl
  have h2 : (mkStateManager envNoBase).state.currentScenario = "base" := rfl
  simp [scenarioOk, h1, h2]

/-- C3 (amended): setCurrentScenario never installs an unknown id: with an
id absent from scenarios it leaves currentScenario unchanged and records
the error Scenario id not found, and the membership invariant
(currentScenario is a key of scenarios) is preserved by every mutation
operation, by scenario selection, by error dismissal and by subscription
changes.  The invariant can fail only where an engine-provided scenario
map lacking the current id is installed wholesale: at construction, import
or reset (as the counterexample shows for construction). -/
theorem C3_scenario_amended (env : Env ε α) (sm : SMgr ε α)
    (scenarioId menuId : String) (u : α) (items : List α) (cb : Nat) :
    (sm.state.scenarios.lookup scenarioId = none →
      (setCurrentScenario scenarioId sm).state.currentScenario =
          sm.state.currentScenario ∧
      (setCurrentScenario scenarioId sm).state.error =
          some ("Scenario " ++ scenarioId ++ " not found")) ∧
    (scenarioOk sm = true →
      scenarioOk (updateMenu env menuId u sm) = true ∧
      scenarioOk (updateSalesModel env u sm) = true ∧
      scenarioOk (updateUtilities env items sm) = true ∧
      scenarioOk (updateLabor env items sm) = true ∧
      scenarioOk (updateFixedCosts env items sm) = true ∧
      scenarioOk (setCurrentScenario scenarioId sm) = true ∧
      scenarioOk (clearError sm) = true ∧
      scenarioOk (subscribe cb sm) = true ∧
      scenarioOk (unsubscribe cb sm) = true) := by
  constructor
  · intro habs
    unfold setCurrentScenario
    rw [habs]
    simp [applyUpdate]
  · intro hok
    refine ⟨?_, ?_, ?_, ?_, ?_, ?_, ?_, ?_, ?_⟩
    · simp only [updateMenu]
      split
      · simpa [scenarioOk, applyUpdate] using hok
      · split
        · simpa [scenarioOk, applyUpdate] using hok
        · simpa [scenarioOk, applyUpdate] using hok
    · simp only [updateSalesModel]
      split
      · simpa [scenarioOk, applyUpdate] using hok
      · split
        · simpa [scenarioOk, applyUpdate] using hok
        · simpa [scenarioOk, applyUpdate] using hok
    · simp only [updateUtilities]
      split
      · simpa [scenarioOk, applyUpdate] using hok
      · split
        · simpa [scenarioOk, applyUpdate] using hok
        · simpa [scenarioOk, applyUpdate] using hok
    · simp only [updateLabor]
      split
      · simpa [scenarioOk, applyUpdate] using hok
      · split
        · simpa [scenarioOk, applyUpdate] using hok
        · simpa [scenarioOk, applyUpdate] using hok
    · simp only [updateFixedCosts]
      split
      · simpa [scenarioOk, applyUpdate] using hok
      · split
        · simpa [scenarioOk, applyUpdate] using hok
        · simpa [scenarioOk, applyUpdate] using hok
    · simp only [setCurrentScenario]
      split
      · next w hw => simp [scenarioOk, applyUpdate, hw]
      · simpa [scenarioOk, applyUpdate] using hok
    · simpa [scenarioOk, clearError, applyUpdate] using hok
    · simpa [scenarioOk, subscribe] using hok
    · simp only [unsubscribe]
      split <;> simpa [scenarioOk] using hok

/-- Witness for C3 (amended) at the well-behaved environment envOK with a
scenario id absent from the scenario map of the constructed manager. -/
theorem C3_witness :
    ((mkStateManager envOK).state.scenarios.lookup "ghost" = none →
      (setCurrentScenario "ghost" (mkStateManager envOK)).state.currentScenario =
          (mkStateManager envOK).state.currentScenario ∧
      (setCurrentScenario "ghost" (mkStateManager envOK)).state.error =
          some ("Scenario " ++ "ghost" ++ " not found")) ∧
    (scenarioOk (mkStateManager envOK) = true →
      scenarioOk (updateMenu envOK "m" 5 (mkStateManager envOK)) = true ∧
      scenarioOk (updateSalesModel envOK 5 (mkStateManager envOK)) = true ∧
      scenarioOk (updateUtilities envOK [5] (mkStateManager envOK)) = true ∧
      scenarioOk (updateLabor envOK [5] (mkStateManager envOK)) = true ∧
      scenarioOk (updateFixedCosts envOK [5] (mkStateManager envOK)) = true ∧
      scenarioOk (setCurrentScenario "ghost" (mkStateManager envOK)) = true ∧
      scenarioOk (clearError (mkStateManager envOK)) = true ∧
      scenarioOk (subscribe 7 (mkStateManager envOK)) = true ∧
      scenarioOk (unsubscribe 7 (mkStateManager envOK)) = true) :=
  C3_scenario_amended envOK (mkStateManager envOK) "ghost" "m" 5 [5] 7

/-- C2: for every menu-update payload rejected by validateMenuItem,
updateMenu leaves the dataset unchanged (both the snapshot field and the
engine-held dataset), sets the error field to the category-prefixed join
of the validator messages, and emits exactly a LOADING and an ERROR
transition: no COMPUTATION and no VALIDATION transition occurs. -/
theorem C2_validation_gate (env : Env ε α) (sm : SMgr ε α)
    (menuId : String) (updates : α)
    (h : (env.validateMenuItem updates).isValid = false) :
    (updateMenu env menuId updates sm).state.data = sm.state.data ∧
    (updateMenu env menuId updates sm).engine = sm.engine ∧
    (updateMenu env menuId updates sm).state.error =
      some ("Menu validation failed: " ++
        String.intercalate ", " (env.validateMenuItem updates).errors) ∧
    ((updateMenu env menuId updates sm).trace.take sm.trace.length =
      sm.trace) ∧
    (((updateMenu env menuId updates sm).trace.drop sm.trace.length).map
      Event.kind) = [.LOADING_UPDATE, .ERROR_UPDATE] := by
  simp only [updateMenu, h, Bool.not_false, if_true]
  refine ⟨?_, ?_, ?_, ?_, ?_⟩ <;>
    simp [applyUpdate, StateUpdate.kind, List.take_left, List.drop_left]

/-- Witness for C2 at the environment envBadMenu, whose menu validator
rejects every payload with the single message price must be positive. -/
theorem C2_witness :
    (updateMenu envBadMenu "m" 5 (mkStateManager envBadMenu)).state.data =
      (mkStateManager envBadMenu).state.data ∧
    (updateMenu envBadMenu "m" 5 (mkStateManager envBadMenu)).engine =
      (mkStateManager envBadMenu).engine ∧
    (updateMenu envBadMenu "m" 5 (mkStateManager envBadMenu)).state.error =
      some ("Menu validation failed: " ++
        String.intercalate ", "
          (envBadMenu.validateMenuItem 5).errors) ∧
    ((updateMenu envBadMenu "m" 5 (mkStateManager envBadMenu)).trace.take
      (mkStateManager envBadMenu).trace.length =
      (mkStateManager envBadMenu).trace) ∧
    (((updateMenu envBadMenu "m" 5
        (mkStateManager envBadMenu)).trace.drop
      (mkStateManager envBadMenu).trace.length).map Event.kind) =
      [.LOADING_UPDATE, .ERROR_UPDATE] :=
  C2_validation_gate envBadMenu (mkStateManager envBadMenu) "m" 5 rfl

/-- C1: for a fixed-cost payload every element of which passes
validateFixedCost, and collaborators that succeed (the engine update and
compute return normally and the whole-dataset validator returns a result),
updateFixedCosts extends the notification trace by exactly five
notifications, in order: LOADING with isLoading true and the error field
cleared, DATA carrying the new dataset read back from the engine,
COMPUTATION carrying the new computation result, VALIDATION, and LOADING
with isLoading false; each is delivered to the registered subscribers. -/
theorem C1_pipeline_order (env : Env ε α) (sm : SMgr ε α)
    (fixedCosts : List α) (eng' : ε) (r : α) (vr : ValidationResult)
    (hval : ∀ c ∈ fixedCosts, (env.validateFixedCost c).isValid = true)
    (hupd : env.engUpdateFixedCosts fixedCosts sm.engine = .ok eng')
    (hcomp : env.compute eng' = .ok r)
    (hv : env.validateAllData (some (env.getData eng')) = .ok vr) :
    (updateFixedCosts env fixedCosts sm).trace.take sm.trace.length =
      sm.trace ∧
    (((updateFixedCosts env fixedCosts sm).trace.drop
        sm.trace.length).map Event.kind) =
      [.LOADING_UPDATE, .DATA_UPDATE, .COMPUTATION_UPDATE, .VALIDATION_UPDATE,
       .LOADING_UPDATE] ∧
    (((updateFixedCosts env fixedCosts sm).trace.drop
        sm.trace.length).map (fun e => e.snapshot.isLoading)) =
      [true, true, true, true, false] ∧
    (((updateFixedCosts env fixedCosts sm).trace.drop
        sm.trace.length).map (fun e => e.snapshot.error)) =
      [none, none, none, none, none] ∧
    (((updateFixedCosts env fixedCosts sm).trace.drop
        sm.trace.length).map (fun e => e.snapshot.data)) =
      [sm.state.data, some (env.getData eng'), some (env.getData eng'),
       some (env.getData eng'), some (env.getData eng')] ∧
    (((updateFixedCosts env fixedCosts sm).trace.drop
        sm.trace.length).map (fun e => e.snapshot.computationResult)) =
      [sm.state.computationResult, sm.state.computationResult,
       some r, some r, some r] ∧
    (((updateFixedCosts env fixedCosts sm).trace.drop
        sm.trace.length).map (fun e => e.delivered)) =
      [sm.subscribers, sm.subscribers, sm.subscribers, sm.subscribers,
       sm.subscribers] := by
  have hany :
      ((fixedCosts.map env.validateFixedCost).any (fun v => !v.isValid)) =
        false := by
    rw [List.any_eq_false]
    intro v hvmem
    rcases List.mem_map.mp hvmem with ⟨c, hc, hfc⟩
    simp [← hfc, hval c hc]
  rcases hl : List.lookup (dataHash env (some (env.getData eng')))
      sm.validationCache with _ | w <;>
    simp [updateFixedCosts, computeAndValidate, validateAllData, hany,
      hupd, hcomp, hv, hl, applyUpdate, StateUpdate.kind,
      List.take_left, List.drop_left]

/-- Witness for C1 at the environment envOK and the manager smErr, which
carries a prior error (cleared by the first LOADING notification) and one
subscriber. -/
theorem C1_witness :
    (updateFixedCosts envOK [5] smErr).trace.take smErr.trace.length =
      smErr.trace ∧
    (((updateFixedCosts envOK [5] smErr).trace.drop
        smErr.trace.length).map Event.kind) =
      [.LOADING_UPDATE, .DATA_UPDATE, .COMPUTATION_UPDATE, .VALIDATION_UPDATE,
       .LOADING_UPDATE] ∧
    (((updateFixedCosts envOK [5] smErr).trace.drop
        smErr.trace.length).map (fun e => e.snapshot.isLoading)) =
      [true, true, true, true, false] ∧
    (((updateFixedCosts envOK [5] smErr).trace.drop
        smErr.trace.length).map (fun e => e.snapshot.error)) =
      [none, none, none, none, none] ∧
    (((updateFixedCosts envOK [5] smErr).trace.drop
        smErr.trace.length).map (fun e => e.snapshot.data)) =
      [smErr.state.data, some (envOK.getData ()), some (envOK.getData ()),
       some (envOK.getData ()), some (envOK.getData ())] ∧
    (((updateFixedCosts envOK [5] smErr).trace.drop
        smErr.trace.length).map (fun e => e.snapshot.computationResult)) =
      [smErr.state.computationResult, smErr.state.computationResult,
       some 7, some 7, some 7] ∧
    (((updateFixedCosts envOK [5] smErr).trace.drop
        smErr.trace.length).map (fun e => e.delivered)) =
      [smErr.subscribers, smErr.subscribers, smErr.subscribers,
       smErr.subscribers, smErr.subscribers] :=
  C1_pipeline_order envOK smErr [5] () 7 ⟨true, [], []⟩
    (by intro c hc; rfl) rfl rfl rfl

/-- C5: two consecutive runs of the compute-and-validate sequence whose
dataset serializations are byte-identical (hhash) and with no cache clear
in between (hcache: the second run starts from exactly the cache the first
run left), under succeeding collaborators, invoke the whole-dataset
validator at most once across both runs, and the second run emits a
VALIDATION outcome equal to that of the first run. -/
theorem C5_cache_reuse (env : Env ε α) (sm sm₂ : SMgr ε α)
    (r r₂ : α) (vr : ValidationResult)
    (hc : env.compute sm.engine = .ok r)
    (hv : env.validateAllData sm.state.data = .ok vr)
    (hc₂ : env.compute sm₂.engine = .ok r₂)
    (hcache : sm₂.validationCache =
      (computeAndValidate env sm).validationCache)
    (hhash : dataHash env sm₂.state.data = dataHash env sm.state.data) :
    ((computeAndValidate env sm).valCalls - sm.valCalls) +
      ((computeAndValidate env sm₂).valCalls - sm₂.valCalls) ≤ 1 ∧
    (computeAndValidate env sm₂).state.validationResults =
      (computeAndValidate env sm).state.validationResults := by
  rcases hl : List.lookup (dataHash env sm.state.data)
      sm.validationCache with _ | w <;>
    constructor <;>
      simp [computeAndValidate, validateAllData, hc, hc₂, hv, hl,
        hcache, hhash, applyUpdate]

/-- Witness for C5: two genuinely consecutive compute-and-validate runs on
the freshly constructed manager over envOK. -/
theorem C5_witness :
    ((computeAndValidate envOK (mkStateManager envOK)).valCalls -
        (mkStateManager envOK).valCalls) +
      ((computeAndValidate envOK
          (computeAndValidate envOK (mkStateManager envOK))).valCalls -
        (computeAndValidate envOK (mkStateManager envOK)).valCalls) ≤ 1 ∧
    (computeAndValidate envOK
        (computeAndValidate envOK
          (mkStateManager envOK))).state.validationResults =
      (computeAndValidate envOK
        (mkStateManager envOK)).state.validationResults :=
  C5_cache_reuse envOK (mkStateManager envOK)
    (computeAndValidate envOK (mkStateManager envOK)) 7 7 ⟨true, [], []⟩
    rfl rfl rfl rfl rfl

/-- C6: after a successful importData the validation cache is wholesale
empty, so a subsequent compute-and-validate cycle re-invokes the
whole-dataset validator (the invocation counter increases by one) and
emits the fresh outcome — even when the serialization of the imported dataset
equals a key that was cached before the import (the pre-import cache of sm
is arbitrary here, so in particular it may contain that key). -/
theorem C6_import_clears_cache (env : Env ε α) (s : String)
    (sm : SMgr ε α) (res : ImportResult) (eng₂ : ε) (r : α)
    (vr : ValidationResult)
    (him : env.importJSON s sm.engine = .ok (res, eng₂))
    (hs : res.success = true)
    (hcomp : env.compute eng₂ = .ok r)
    (hv : env.validateAllData (some (env.getData eng₂)) = .ok vr) :
    (importData env s sm).1.validationCache = [] ∧
    (computeAndValidate env (importData env s sm).1).valCalls =
      (importData env s sm).1.valCalls + 1 ∧
    (computeAndValidate env
        (importData env s sm).1).state.validationResults = [vr] := by
  rcases hl : List.lookup (dataHash env (some (env.getData eng₂)))
      sm.validationCache with _ | w <;>
    constructor <;>
      simp [importData, him, hs, computeAndValidate, validateAllData,
        hcomp, hv, hl, applyUpdate]

/-- Witness for C6 on the freshly constructed manager over envOK. -/
theorem C6_witness :
    (importData envOK "x" (mkStateManager envOK)).1.validationCache = [] ∧
    (computeAndValidate envOK
        (importData envOK "x" (mkStateManager envOK)).1).valCalls =
      (importData envOK "x" (mkStateManager envOK)).1.valCalls + 1 ∧
    (computeAndValidate envOK
        (importData envOK "x"
          (mkStateManager envOK)).1).state.validationResults =
      [⟨true, [], []⟩] :=
  C6_import_clears_cache envOK "x" (mkStateManager envOK)
    { success := true, error := none } () 7 ⟨true, [], []⟩ rfl rfl rfl rfl

/-- C10 (implicit): within a single importData call the internal
compute-and-validate pass consults the validation cache before the cache
is cleared, so when the serialization of the imported dataset equals a
pre-import cached key, the VALIDATION transition emitted during the import
carries the pre-import cached outcome (r₀) and the whole-dataset validator
is not invoked at all during the call. -/
theorem C10_import_uses_stale_cache (env : Env ε α) (s : String)
    (sm : SMgr ε α) (res : ImportResult) (eng₂ : ε) (r : α)
    (r₀ : ValidationResult)
    (him : env.importJSON s sm.engine = .ok (res, eng₂))
    (hs : res.success = true)
    (hcomp : env.compute eng₂ = .ok r)
    (hl : List.lookup (dataHash env (some (env.getData eng₂)))
      sm.validationCache = some r₀) :
    (importData env s sm).1.state.validationResults = [r₀] ∧
    (importData env s sm).1.valCalls = sm.valCalls := by
  constructor <;>
    simp [importData, him, hs, computeAndValidate, validateAllData,
      hcomp, hl, applyUpdate]

/-- Witness for C10 on smStale, whose cache holds a stale outcome under
the key equal to the serialization of the dataset the import installs. -/
theorem C10_witness :
    (importData envOK "x" smStale).1.state.validationResults =
      [⟨false, ["stale"], []⟩] ∧
    (importData envOK "x" smStale).1.valCalls = smStale.valCalls :=
  C10_import_uses_stale_cache envOK "x" smStale
    { success := true, error := none } () 7 ⟨false, ["stale"], []⟩
    rfl rfl rfl rfl

/-- C8 counterexample: the claim states that mutating the value returned
by getState, including its nested structures such as the dataset, never
changes the container-owned state observable through subsequent getState
or getter calls.  The source returns a shallow spread copy, so the data
field of the copy holds the same reference as that of the container-held
state: writing the dataset object through that shared reference (heapWrite
at the data address of the copy) changes what the container observes
(readData), refuting the
claim at the concrete state stC8 and heap heapC8. -/
theorem C8_counterexample :
    readData stC8 (heapWrite heapC8 (getStateRef stC8).data 99) ≠
      readData stC8 heapC8 := by
  decide

/-- C8 (amended): getState returns a shallow copy: the returned record is
value-equal to the container-held state, but its data field holds the
same reference as the container-held one (not a copy of the referenced
object), so a
mutation applied to the nested dataset through the returned copy is
observable through subsequent container reads. -/
theorem C8_getState_amended (st : AppStateRef α) (h : Heap α) (v : α)
    (hlt : st.data < h.length) :
    getStateRef st = st ∧
    (getStateRef st).data = st.data ∧
    readData st (heapWrite h (getStateRef st).data v) = some v := by
  refine ⟨rfl, rfl, ?_⟩
  show (h.set st.data v)[st.data]? = some v
  exact List.getElem?_set_eq_of_lt v hlt

/-- Witness for C8 (amended) at the concrete state stC8 and heap
heapC8. -/
theorem C8_witness :
    getStateRef stC8 = stC8 ∧
    (getStateRef stC8).data = stC8.data ∧
    readData stC8 (heapWrite heapC8 (getStateRef stC8).data 99) =
      some 99 :=
  C8_getState_amended stC8 heapC8 99 (by decide)

/-- C4: no exception escapes a public StateManager method other than
exportData: whenever a collaborator call inside a mutation operation,
importData, reset or the compute pass throws, the method still returns
normally (in the model: it is a total function whose value is exhibited
below), with the failure converted into an ERROR transition carrying the
operation-specific prefix; importData additionally reports the failure
result object to the caller.  exportData alone propagates the engine
failure to the caller unchanged.  (Methods that call no throwing
collaborator — subscribe, unsubscribe, getState, the getters,
setCurrentScenario, clearError, updateState itself — are total by
construction in the model, mirroring the straight-line field assignments
of the source.) -/
theorem C4_exception_boundary (env : Env ε α) (sm : SMgr ε α)
    (menuId s : String) (u : α) (items : List α) (e : String) :
    ((env.validateMenuItem u).isValid = true →
      env.engUpdateMenu menuId u sm.engine = .error e →
      updateMenu env menuId u sm =
        updateState (.errorU (some ("Failed to update menu: " ++ e)))
          (updateState (.loadingU true) sm)) ∧
    ((env.validateSalesModel u).isValid = true →
      env.engUpdateSalesModel u sm.engine = .error e →
      updateSalesModel env u sm =
        updateState
          (.errorU (some ("Failed to update sales model: " ++ e)))
          (updateState (.loadingU true) sm)) ∧
    (((items.map env.validateUtilityItem).any (fun r => !r.isValid))
        = false →
      env.engUpdateUtilities items sm.engine = .error e →
      updateUtilities env items sm =
        updateState (.errorU (some ("Failed to update utilities: " ++ e)))
          (updateState (.loadingU true) sm)) ∧
    (((items.map env.validateLaborItem).any (fun r => !r.isValid))
        = false →
      env.engUpdateLabor items sm.engine = .error e →
      updateLabor env items sm =
        updateState (.errorU (some ("Failed to update labor: " ++ e)))
          (updateState (.loadingU true) sm)) ∧
    (((items.map env.validateFixedCost).any (fun r => !r.isValid))
        = false →
      env.engUpdateFixedCosts items sm.engine = .error e →
      updateFixedCosts env items sm =
        updateState
          (.errorU (some ("Failed to update fixed costs: " ++ e)))
          (updateState (.loadingU true) sm)) ∧
    (env.importJSON s sm.engine = .error e →
      importData env s sm =
        (updateState (.errorU (some ("Import failed: " ++ e)))
          (updateState (.loadingU true) sm),
         { success := false, error := some e })) ∧
    (env.init env.freshEngine = .error e →
      reset env sm =
        updateState (.errorU (some ("Reset failed: " ++ e)))
          { updateState (.loadingU true) sm with
            engine := env.freshEngine }) ∧
    (env.compute sm.engine = .error e →
      computeAndValidate env sm =
        updateState (.errorU (some ("Computation failed: " ++ e))) sm) ∧
    exportData env sm = env.exportJSON sm.engine := by
  refine ⟨?_, ?_, ?_, ?_, ?_, ?_, ?_, ?_, rfl⟩
  · intro h1 h2
    simp [updateMenu, h1, h2]
  · intro h1 h2
    simp [updateSalesModel, h1, h2]
  · intro h1 h2
    simp [updateUtilities, h1, h2]
  · intro h1 h2
    simp [updateLabor, h1, h2]
  · intro h1 h2
    simp [updateFixedCosts, h1, h2]
  · intro h2
    simp [importData, h2]
  · intro h2
    simp [reset, h2]
  · intro h2
    simp [computeAndValidate, h2]

/-- Witness for C4 over the all-throwing environment envAllThrow and the
manager smThrow constructed over it: each catch boundary is exercised at a
concrete input. -/
theorem C4_witness :
    updateMenu envAllThrow "m" 5 smThrow =
      updateState
        (.errorU (some ("Failed to update menu: " ++ "boom")))
        (updateState (.loadingU true) smThrow) ∧
    updateSalesModel envAllThrow 5 smThrow =
      updateState
        (.errorU (some ("Failed to update sales model: " ++ "boom")))
        (updateState (.loadingU true) smThrow) ∧
    updateUtilities envAllThrow [5] smThrow =
      updateState
        (.errorU (some ("Failed to update utilities: " ++ "boom")))
        (updateState (.loadingU true) smThrow) ∧
    updateLabor envAllThrow [5] smThrow =
      updateState
        (.errorU (some ("Failed to update labor: " ++ "boom")))
        (updateState (.loadingU true) smThrow) ∧
    updateFixedCosts envAllThrow [5] smThrow =
      updateState
        (.errorU (some ("Failed to update fixed costs: " ++ "boom")))
        (updateState (.loadingU true) smThrow) ∧
    importData envAllThrow "x" smThrow =
      (updateState (.errorU (some ("Import failed: " ++ "boom")))
        (updateState (.loadingU true) smThrow),
       { success := false, error := some "boom" }) ∧
    reset envAllThrow smThrow =
      updateState (.errorU (some ("Reset failed: " ++ "boom")))
        { updateState (.loadingU true) smThrow with
          engine := envAllThrow.freshEngine } ∧
    computeAndValidate envAllThrow smThrow =
      updateState
        (.errorU (some ("Computation failed: " ++ "boom"))) smThrow ∧
    exportData envAllThrow smThrow = envAllThrow.exportJSON smThrow.engine
    := by
  have T := C4_exception_boundary envAllThrow smThrow "m" "x" 5 [5] "boom"
  exact ⟨T.1 rfl rfl, T.2.1 rfl rfl, T.2.2.1 rfl rfl, T.2.2.2.1 rfl rfl,
    T.2.2.2.2.1 rfl rfl, T.2.2.2.2.2.1 rfl, T.2.2.2.2.2.2.1 rfl,
    T.2.2.2.2.2.2.2.1 rfl, T.2.2.2.2.2.2.2.2⟩

end FinSim
